import Mathlib

/-!
A shallow embedding of the verification-token protocol and the related model
operations of the montafon repository, together with theorems settling the
spec claims against it.

Covered source files:
* `src/request/token/verification.rs` — `VerificationToken::from_request`
* `src/model/user_email.rs` — `UserEmail::{find_by_id, insert,
  grant_activation_token}` and `ACTIVATION_HASH_{SOURCE, LENGTH}`
* `src/model/membership.rs` — `Membership::find_by_id`
* `src/mq.rs` — `MqConn::from_request`

Conventions: timestamps (`chrono::NaiveDateTime` / `DateTime<Utc>`) are
embedded as `Int` seconds; `chrono::Duration::hours h` is `h * 3600` seconds.
Fallible external calls (redis, diesel, r2d2) are passed in as explicit
`Except`-valued arguments; randomness and the clock are explicit arguments.
-/

namespace Montafon

/-- The typed failure of `VerificationToken::from_request`
(`VerificationTokenError` in `src/request/token/verification.rs`). -/
inductive VerificationTokenError where
  | Expired
  | Invalid
  | Missing
  | Unknown
deriving DecidableEq, Repr

/-- Rocket's request-guard outcome. `failure` carries the HTTP status code set
by the `bad_request_by!` (400), `not_found_by!` (404) and
`unprocessable_entity_by!` (422) macros together with the typed error. -/
inductive ReqOutcome (α : Type) (ε : Type) where
  | success : α → ReqOutcome α ε
  | failure : Nat → ε → ReqOutcome α ε
  | forward : ReqOutcome α ε
deriving DecidableEq, Repr

/-- Modelled from the spec: the error type of `verify_token`
(`request/token/mod.rs` is not under src/). §4.2 names the decode failure
kinds `Malformed`, `SignatureMismatch`, `IssuerMismatch` and `Expired`; the
code in `verification.rs` only logs the error value and never inspects it. -/
inductive DecodeError where
  | Expired
  | Malformed
  | SignatureMismatch
  | IssuerMismatch
deriving DecidableEq, Repr

/-- The two configuration fields `VerificationToken::from_request` reads from
`State<Config>`. -/
structure Config where
  verification_token_issuer : String
  verification_token_secret : String
deriving DecidableEq, Repr

/-- The parts of the inbound HTTP request that
`VerificationToken::from_request` inspects: the single `X-Requested-With`
header value (`get_one`), the list of `Authorization` header values (`get`),
and path parameter 2 (`get_param(2)` already mapped through `.ok()`). -/
structure Request where
  xRequestedWith : Option String
  authorizationHeaders : List String
  param2 : Option String
deriving DecidableEq, Repr

/-- Modelled from the spec: the constant `AUTHORIZATION_HEADER_PREFIX` lives in
`request/token/mod.rs`, which is not under src/; the spec (§6) only fixes that
the credential has the form `<prefix><token>`. No claim depends on the value. -/
def AUTHORIZATION_HEADER_PREFIX : String := "Bearer "

/-- Rust `str::starts_with(&str)` (all strings involved are ASCII, so the
byte-level test coincides with the character-level one). -/
def strStartsWith (s p : String) : Bool := p.toList.isPrefixOf s.toList

/-- Rust byte slicing `&s[n..]` for an ASCII prefix of length `n`. -/
def strDrop (s : String) (n : Nat) : String := String.mk (s.toList.drop n)

/-- Rust `str::contains(char)`. -/
def strContainsChar (s : String) (c : Char) : Bool := s.toList.contains c

/-- `VerificationToken::from_request` (`src/request/token/verification.rs`,
lines 43–112). `verify` is `verify_token::<VerificationClaims>`, `ssGet` is
the session-secret lookup `ss_conn.get` (a redis `GET`; an absent key or an
I/O error both surface as `RedisError`, i.e., `Except.error`). -/
def VerificationToken.from_request
    (verify : String → String → String → Except DecodeError String)
    (ssGet : String → Except Unit String)
    (config : Config) (req : Request) :
    ReqOutcome String VerificationTokenError :=
  if req.xRequestedWith ≠ some "XMLHttpRequest" then
    .failure 400 .Invalid
  else
    match req.authorizationHeaders with
    | [h] =>
      if ¬ strStartsWith h AUTHORIZATION_HEADER_PREFIX then
        .failure 400 .Invalid
      else
        let token := strDrop h AUTHORIZATION_HEADER_PREFIX.length
        if ¬ strContainsChar token '.' then
          .failure 400 .Invalid
        else
          let session_id := req.param2.getD ""
          if session_id.isEmpty then
            .failure 400 .Invalid
          else
            match ssGet session_id with
            | .error _ => .failure 404 .Unknown
            | .ok secret =>
              let verification_token := token ++ "." ++ secret
              match verify verification_token
                  config.verification_token_issuer
                  config.verification_token_secret with
              | .ok t => .success t
              | .error _ => .failure 422 .Expired
    | [] => .failure 400 .Missing
    | _ => .failure 400 .Invalid

/-- `UserEmailRole` (`src/model/user_email_role.rs` is not under src/; the
constructors `Primary` and `General` are the ones `user_email.rs` uses). -/
inductive UserEmailRole where
  | Primary
  | General
deriving DecidableEq, Repr

/-- `UserEmailActivationState` (`src/model/user_email_activation_state.rs` is
not under src/; `Pending` is the constructor `user_email.rs` uses, `Active`
completes the grant lifecycle of spec §3). -/
inductive UserEmailActivationState where
  | Pending
  | Active
deriving DecidableEq, Repr

/-- `NewUserEmail` (`src/model/user_email.rs`, lines 20–26). -/
structure NewUserEmail where
  user_id : Int
  email : String
  role : UserEmailRole
  activation_state : UserEmailActivationState
deriving DecidableEq, Repr

/-- `UserEmail` (`src/model/user_email.rs`, lines 56–67); timestamps are `Int`
seconds. -/
structure UserEmail where
  id : Int
  user_id : Int
  email : Option String
  role : UserEmailRole
  activation_state : UserEmailActivationState
  activation_token : Option String
  activation_token_expires_at : Option Int
  activation_token_granted_at : Option Int
  created_at : Int
  updated_at : Int
deriving DecidableEq, Repr

/-- `ACTIVATION_HASH_LENGTH` (`src/model/user_email.rs`, line 15). -/
def ACTIVATION_HASH_LENGTH : Int := 128

/-- `ACTIVATION_HASH_SOURCE` (`src/model/user_email.rs`, lines 16–17); the
byte string is embedded as its list of ASCII characters. Note the source ends
in `01234567890` exactly as in the code (the final `0` is repeated). -/
def ACTIVATION_HASH_SOURCE : List Char :=
  "ABCDEFGHIJKLMNOPQRSTUVWXYZabcdefghijklmnopqrstuvwxyz01234567890".toList

/-- Modelled from the spec: `util::generate_random_hash` is not under src/.
Spec §4.1 says issuance "generates a cryptographically random opaque string of
fixed length (128 characters) drawn from an alphanumeric alphabet"; the random
choices are passed in as `pick`, each reduced modulo the source size. -/
def generate_random_hash (source : List Char) (length : Int)
    (pick : Nat → Nat) : String :=
  String.mk ((List.range length.toNat).map
    (fun i => source.getD (pick i % source.length) 'A'))

/-- `chrono::Duration::hours` in seconds. -/
def Duration.hours (h : Int) : Int := h * 3600

/-- The column assignments of the `diesel::update(self).set((..))` in
`UserEmail::grant_activation_token` (`src/model/user_email.rs`,
lines 145–150): the four listed columns are overwritten, all others kept. -/
def applyGrantUpdate (row : UserEmail) (tok : String)
    (granted_at expires_at : Int) : UserEmail :=
  { row with
    activation_state := .Pending
    activation_token := some tok
    activation_token_expires_at := some expires_at
    activation_token_granted_at := some granted_at }

/-- `UserEmail::grant_activation_token` (`src/model/user_email.rs`,
lines 130–161). `pick` supplies the randomness of `generate_random_hash`,
`now` is `Utc::now()`, and `dbFails` tells whether `q.get_result` errors.
Returns the Rust result paired with the resulting state of the record (the
row is unchanged when the update fails). -/
def UserEmail.grant_activation_token (pick : Nat → Nat) (now : Int)
    (dbFails : Bool) (self : UserEmail) : Except String String × UserEmail :=
  let activation_token :=
    generate_random_hash ACTIVATION_HASH_SOURCE ACTIVATION_HASH_LENGTH pick
  let granted_at := now
  let expires_at := granted_at + Duration.hours 24
  let newRow := applyGrantUpdate self activation_token granted_at expires_at
  if dbFails then (.error "failed to grant token", self)
  else (.ok activation_token, newRow)

/-- `UserEmail::insert` (`src/model/user_email.rs`, lines 106–128). The insert
statement sets exactly `user_id`, `email`, `role = Primary` and
`activation_state = Pending`; the database supplies `id`, `created_at` and
`updated_at` (given here as `dbResult`'s payload) and leaves the three
activation-token columns NULL, as the function's own doc comment states. -/
def UserEmail.insert (user_email : NewUserEmail)
    (dbResult : Except Unit (Int × Int × Int)) : Option UserEmail :=
  match dbResult with
  | .error _ => none
  | .ok (id, created_at, updated_at) =>
    some
      { id := id
        user_id := user_email.user_id
        email := some user_email.email
        role := .Primary
        activation_state := .Pending
        activation_token := none
        activation_token_expires_at := none
        activation_token_granted_at := none
        created_at := created_at
        updated_at := updated_at }

/-- `UserEmail::find_by_id` (`src/model/user_email.rs`, lines 76–94). `store`
embeds the record store's answer to `q.first::<UserEmail>(conn)` for a given
id. -/
def UserEmail.find_by_id (id : Int)
    (store : Int → Except Unit UserEmail) : Option UserEmail :=
  if id < 1 then none
  else
    match store id with
    | .ok v => some v
    | .error _ => none

/-- `MembershipRole` (`src/model/membership_role.rs` is not under src/;
`PrimaryOwner` is the constructor `membership.rs` uses, `Member` completes the
enum). -/
inductive MembershipRole where
  | PrimaryOwner
  | Member
deriving DecidableEq, Repr

/-- `Membership` (`src/model/membership.rs`, lines 38–46). -/
structure Membership where
  id : Int
  namespace_id : Int
  user_id : Int
  role : MembershipRole
  revoked_at : Option Int
  created_at : Int
  updated_at : Int
deriving DecidableEq, Repr

/-- `Membership::find_by_id` (`src/model/membership.rs`, lines 66–84). -/
def Membership.find_by_id (id : Int)
    (store : Int → Except Unit Membership) : Option Membership :=
  if id < 1 then none
  else
    match store id with
    | .ok v => some v
    | .error _ => none

/-- `MqConn::from_request` (`src/mq.rs`, lines 17–23). `poolGet` is the result
of `pool.get()` on the bounded r2d2 connection pool — r2d2's `get` waits at
most the pool's timeout and then returns `Err`, embedded as `Except.error`.
`Status::ServiceUnavailable` is 503. -/
def MqConn.from_request {α : Type} (poolGet : Except Unit α) :
    ReqOutcome α Unit :=
  match poolGet with
  | .ok conn => .success conn
  | .error _ => .failure 503 ()

/-! Concrete collaborators used to instantiate the theorems below. -/

/-- A `verify_token` instance that always fails with `Malformed`. -/
def verifyEx : String → String → String → Except DecodeError String :=
  fun _ _ _ => .error .Malformed

/-- A `verify_token` instance that always fails with `SignatureMismatch`
(a decode failure not caused by expiry). -/
def sigMismatchVerify : String → String → String → Except DecodeError String :=
  fun _ _ _ => .error .SignatureMismatch

/-- A `verify_token` instance that succeeds and returns the key it was handed:
running `from_request` against it reveals which value reaches the decode key
position. -/
def keyEcho : String → String → String → Except DecodeError String :=
  fun _ _ key => .ok key

/-- A session-secret store holding exactly one session, `sid42`, whose secret
differs from the configured verification token secret. -/
def ssGetEx : String → Except Unit String :=
  fun sid => if sid = "sid42" then .ok "SESSIONSECRET" else .error ()

/-- A concrete `Config` whose secret differs from the stored session secret. -/
def cfgEx : Config :=
  { verification_token_issuer := "issuer"
    verification_token_secret := "CONFIGSECRET" }

/-- A well-formed inbound request: anti-CSRF header present, one credential
with the expected shape, session id in path position 2. -/
def reqEx : Request :=
  { xRequestedWith := some "XMLHttpRequest"
    authorizationHeaders := ["Bearer ab.cd"]
    param2 := some "sid42" }

/-- Every header, shape and session check of `from_request` up to the decode
step, as the code performs them: under these hypotheses the outcome is decided
by `verify_token` applied to the reconstructed string
`stripped-credential ++ "." ++ secret`, the configured issuer, and the
configured `verification_token_secret`; any decode error is mapped to the 422
`Expired` failure. -/
theorem from_request_reaches_decode
    (verify : String → String → String → Except DecodeError String)
    (ssGet : String → Except Unit String) (config : Config) (req : Request)
    (hdr secret : String)
    (hx : req.xRequestedWith = some "XMLHttpRequest")
    (hh : req.authorizationHeaders = [hdr])
    (hpre : strStartsWith hdr AUTHORIZATION_HEADER_PREFIX = true)
    (hdot : strContainsChar (strDrop hdr AUTHORIZATION_HEADER_PREFIX.length) '.' = true)
    (hsid : (req.param2.getD "").isEmpty = false)
    (hss : ssGet (req.param2.getD "") = Except.ok secret) :
    VerificationToken.from_request verify ssGet config req =
      match verify ((strDrop hdr AUTHORIZATION_HEADER_PREFIX.length) ++ "." ++ secret)
          config.verification_token_issuer config.verification_token_secret with
      | .ok t => .success t
      | .error _ => .failure 422 .Expired := by
  unfold VerificationToken.from_request
  rw [hx, hh]
  simp [hpre, hdot, hsid, hss]

/-- Claim C1 formalised as the spec states it: whenever a verification request
reaches the decode step, the decode is `verify (credential ++ "." ++ secret)`
with the configured issuer and with **the session secret itself** as the
decode key. -/
def C1Stated : Prop :=
  ∀ (verify : String → String → String → Except DecodeError String)
    (ssGet : String → Except Unit String) (config : Config) (req : Request)
    (hdr secret : String),
    req.xRequestedWith = some "XMLHttpRequest" →
    req.authorizationHeaders = [hdr] →
    strStartsWith hdr AUTHORIZATION_HEADER_PREFIX = true →
    strContainsChar (strDrop hdr AUTHORIZATION_HEADER_PREFIX.length) '.' = true →
    (req.param2.getD "").isEmpty = false →
    ssGet (req.param2.getD "") = Except.ok secret →
    VerificationToken.from_request verify ssGet config req =
      match verify ((strDrop hdr AUTHORIZATION_HEADER_PREFIX.length) ++ "." ++ secret)
          config.verification_token_issuer secret with
      | .ok t => .success t
      | .error _ => .failure 422 .Expired

/-- C1 counterexample: run `from_request` with a decoder that returns the key
it receives. The session store maps `sid42` to `SESSIONSECRET`, yet the
outcome is `success "CONFIGSECRET"` — the decode key is the configured
`verification_token_secret`, not the session secret — so C1 as stated is
false. -/
theorem C1_counterexample :
    VerificationToken.from_request keyEcho ssGetEx cfgEx reqEx =
      ReqOutcome.success "CONFIGSECRET"
    ∧ ssGetEx "sid42" = Except.ok "SESSIONSECRET"
    ∧ ¬ C1Stated := by
  refine ⟨by decide, rfl, fun hc => ?_⟩
  have h2 := hc keyEcho ssGetEx cfgEx reqEx "Bearer ab.cd" "SESSIONSECRET"
    rfl rfl (by decide) (by decide) (by decide) rfl
  have h1 : VerificationToken.from_request keyEcho ssGetEx cfgEx reqEx =
      ReqOutcome.success "CONFIGSECRET" := by decide
  rw [h1] at h2
  exact absurd h2 (by decide)

/-- C1 amended: the full signed value passed to decode is the prefix-stripped
credential concatenated with `"."` and the session secret fetched from the
session-secret store, and the decode key is the configured
`verification_token_secret` (the session secret supplies the appended half of
the signed value, not the key). -/
theorem C1_amended
    (verify : String → String → String → Except DecodeError String)
    (ssGet : String → Except Unit String) (config : Config) (req : Request)
    (hdr secret : String)
    (hx : req.xRequestedWith = some "XMLHttpRequest")
    (hh : req.authorizationHeaders = [hdr])
    (hpre : strStartsWith hdr AUTHORIZATION_HEADER_PREFIX = true)
    (hdot : strContainsChar (strDrop hdr AUTHORIZATION_HEADER_PREFIX.length) '.' = true)
    (hsid : (req.param2.getD "").isEmpty = false)
    (hss : ssGet (req.param2.getD "") = Except.ok secret) :
    VerificationToken.from_request verify ssGet config req =
      match verify ((strDrop hdr AUTHORIZATION_HEADER_PREFIX.length) ++ "." ++ secret)
          config.verification_token_issuer config.verification_token_secret with
      | .ok t => .success t
      | .error _ => .failure 422 .Expired :=
  from_request_reaches_decode verify ssGet config req hdr secret
    hx hh hpre hdot hsid hss

/-- C1 amended, instantiated at a concrete request. -/
theorem C1_amended_witness :
    reqEx.xRequestedWith = some "XMLHttpRequest"
    ∧ reqEx.authorizationHeaders = ["Bearer ab.cd"]
    ∧ VerificationToken.from_request verifyEx ssGetEx cfgEx reqEx =
      match verifyEx ((strDrop "Bearer ab.cd" AUTHORIZATION_HEADER_PREFIX.length)
            ++ "." ++ "SESSIONSECRET")
          cfgEx.verification_token_issuer cfgEx.verification_token_secret with
      | .ok t => .success t
      | .error _ => .failure 422 .Expired :=
  ⟨rfl, rfl,
    C1_amended verifyEx ssGetEx cfgEx reqEx "Bearer ab.cd" "SESSIONSECRET"
      rfl rfl (by decide) (by decide) (by decide) rfl⟩

/-- Claim C2 formalised as the spec states it: a decode failure caused by
expiry yields `Expired` and every other decode failure yields `Unknown`. -/
def C2Stated : Prop :=
  ∀ (verify : String → String → String → Except DecodeError String)
    (ssGet : String → Except Unit String) (config : Config) (req : Request)
    (hdr secret : String),
    req.xRequestedWith = some "XMLHttpRequest" →
    req.authorizationHeaders = [hdr] →
    strStartsWith hdr AUTHORIZATION_HEADER_PREFIX = true →
    strContainsChar (strDrop hdr AUTHORIZATION_HEADER_PREFIX.length) '.' = true →
    (req.param2.getD "").isEmpty = false →
    ssGet (req.param2.getD "") = Except.ok secret →
    ∀ e : DecodeError,
      verify ((strDrop hdr AUTHORIZATION_HEADER_PREFIX.length) ++ "." ++ secret)
          config.verification_token_issuer config.verification_token_secret =
        Except.error e →
      (e = DecodeError.Expired →
        ∃ s, VerificationToken.from_request verify ssGet config req =
          ReqOutcome.failure s VerificationTokenError.Expired)
      ∧ (e ≠ DecodeError.Expired →
        ∃ s, VerificationToken.from_request verify ssGet config req =
          ReqOutcome.failure s VerificationTokenError.Unknown)

/-- C2 counterexample: with a decoder failing with `SignatureMismatch` — a
decode failure not caused by expiry — the code returns the 422 `Expired`
failure, not `Unknown`, so C2 as stated is false. -/
theorem C2_counterexample :
    VerificationToken.from_request sigMismatchVerify ssGetEx cfgEx reqEx =
      ReqOutcome.failure 422 VerificationTokenError.Expired
    ∧ ¬ C2Stated := by
  refine ⟨by decide, fun hc => ?_⟩
  have h2 := (hc sigMismatchVerify ssGetEx cfgEx reqEx "Bearer ab.cd"
      "SESSIONSECRET" rfl rfl (by decide) (by decide) (by decide) rfl
      DecodeError.SignatureMismatch rfl).2 (by decide)
  obtain ⟨s, hs⟩ := h2
  have h1 : VerificationToken.from_request sigMismatchVerify ssGetEx cfgEx
      reqEx = ReqOutcome.failure 422 VerificationTokenError.Expired := by decide
  rw [h1] at hs
  exact absurd (ReqOutcome.failure.inj hs).2 (by decide)

/-- C2 amended: every decode failure — whether caused by expiry or not —
yields the 422 `Expired` failure; the code never maps a decode failure to
`Unknown` and never turns one into success. -/
theorem C2_amended
    (verify : String → String → String → Except DecodeError String)
    (ssGet : String → Except Unit String) (config : Config) (req : Request)
    (hdr secret : String) (e : DecodeError)
    (hx : req.xRequestedWith = some "XMLHttpRequest")
    (hh : req.authorizationHeaders = [hdr])
    (hpre : strStartsWith hdr AUTHORIZATION_HEADER_PREFIX = true)
    (hdot : strContainsChar (strDrop hdr AUTHORIZATION_HEADER_PREFIX.length) '.' = true)
    (hsid : (req.param2.getD "").isEmpty = false)
    (hss : ssGet (req.param2.getD "") = Except.ok secret)
    (hv : verify ((strDrop hdr AUTHORIZATION_HEADER_PREFIX.length) ++ "." ++ secret)
        config.verification_token_issuer config.verification_token_secret =
      Except.error e) :
    VerificationToken.from_request verify ssGet config req =
      ReqOutcome.failure 422 VerificationTokenError.Expired := by
  rw [from_request_reaches_decode verify ssGet config req hdr secret
    hx hh hpre hdot hsid hss, hv]

/-- C2 amended, instantiated at a concrete request with a non-expiry decode
failure. -/
theorem C2_amended_witness :
    reqEx.authorizationHeaders = ["Bearer ab.cd"]
    ∧ sigMismatchVerify ((strDrop "Bearer ab.cd" AUTHORIZATION_HEADER_PREFIX.length)
          ++ "." ++ "SESSIONSECRET")
        cfgEx.verification_token_issuer cfgEx.verification_token_secret =
      Except.error DecodeError.SignatureMismatch
    ∧ VerificationToken.from_request sigMismatchVerify ssGetEx cfgEx reqEx =
      ReqOutcome.failure 422 VerificationTokenError.Expired :=
  ⟨rfl, rfl,
    C2_amended sigMismatchVerify ssGetEx cfgEx reqEx "Bearer ab.cd"
      "SESSIONSECRET" DecodeError.SignatureMismatch
      rfl rfl (by decide) (by decide) (by decide) rfl rfl⟩

/-- C3: the inbound header checks fail with the specified, distinct error
kinds: an absent or mismatching `X-Requested-With` anti-CSRF header gives the
400 `Invalid` failure; with the anti-CSRF header right, zero `Authorization`
headers give the 400 `Missing` failure; two or more give the 400 `Invalid`
failure; and a single one that does not carry the expected prefix gives the
400 `Invalid` failure. -/
theorem C3_header_checks :
    (∀ (verify : String → String → String → Except DecodeError String)
      (ssGet : String → Except Unit String) (config : Config) (req : Request),
      req.xRequestedWith ≠ some "XMLHttpRequest" →
      VerificationToken.from_request verify ssGet config req =
        ReqOutcome.failure 400 VerificationTokenError.Invalid)
    ∧ (∀ (verify : String → String → String → Except DecodeError String)
      (ssGet : String → Except Unit String) (config : Config) (req : Request),
      req.xRequestedWith = some "XMLHttpRequest" →
      req.authorizationHeaders = [] →
      VerificationToken.from_request verify ssGet config req =
        ReqOutcome.failure 400 VerificationTokenError.Missing)
    ∧ (∀ (verify : String → String → String → Except DecodeError String)
      (ssGet : String → Except Unit String) (config : Config) (req : Request)
      (h1 h2 : String) (hs : List String),
      req.xRequestedWith = some "XMLHttpRequest" →
      req.authorizationHeaders = h1 :: h2 :: hs →
      VerificationToken.from_request verify ssGet config req =
        ReqOutcome.failure 400 VerificationTokenError.Invalid)
    ∧ (∀ (verify : String → String → String → Except DecodeError String)
      (ssGet : String → Except Unit String) (config : Config) (req : Request)
      (hdr : String),
      req.xRequestedWith = some "XMLHttpRequest" →
      req.authorizationHeaders = [hdr] →
      strStartsWith hdr AUTHORIZATION_HEADER_PREFIX = false →
      VerificationToken.from_request verify ssGet config req =
        ReqOutcome.failure 400 VerificationTokenError.Invalid) := by
  refine ⟨?_, ?_, ?_, ?_⟩
  · intro verify ssGet config req hx
    unfold VerificationToken.from_request
    rw [if_pos hx]
  · intro verify ssGet config req hx hh
    unfold VerificationToken.from_request
    rw [hh]
    simp [hx]
  · intro verify ssGet config req h1 h2 hs hx hh
    unfold VerificationToken.from_request
    rw [hh]
    simp [hx]
  · intro verify ssGet config req hdr hx hh hpre
    unfold VerificationToken.from_request
    rw [hh]
    simp [hx, hpre]

/-- C3, instantiated: a request without the anti-CSRF header, one with the
header but no credential, one with two credentials, and one whose single
credential lacks the expected prefix. -/
theorem C3_header_checks_witness :
    VerificationToken.from_request verifyEx ssGetEx cfgEx
      { xRequestedWith := none
        authorizationHeaders := ["Bearer ab.cd"]
        param2 := some "sid42" } =
      ReqOutcome.failure 400 VerificationTokenError.Invalid
    ∧ VerificationToken.from_request verifyEx ssGetEx cfgEx
      { xRequestedWith := some "XMLHttpRequest"
        authorizationHeaders := []
        param2 := some "sid42" } =
      ReqOutcome.failure 400 VerificationTokenError.Missing
    ∧ VerificationToken.from_request verifyEx ssGetEx cfgEx
      { xRequestedWith := some "XMLHttpRequest"
        authorizationHeaders := ["Bearer ab.cd", "Bearer ef.gh"]
        param2 := some "sid42" } =
      ReqOutcome.failure 400 VerificationTokenError.Invalid
    ∧ VerificationToken.from_request verifyEx ssGetEx cfgEx
      { xRequestedWith := some "XMLHttpRequest"
        authorizationHeaders := ["Token ab.cd"]
        param2 := some "sid42" } =
      ReqOutcome.failure 400 VerificationTokenError.Invalid :=
  ⟨C3_header_checks.1 verifyEx ssGetEx cfgEx _ (by decide),
    C3_header_checks.2.1 verifyEx ssGetEx cfgEx _ (by decide) rfl,
    C3_header_checks.2.2.1 verifyEx ssGetEx cfgEx _ "Bearer ab.cd"
      "Bearer ef.gh" [] (by decide) rfl,
    C3_header_checks.2.2.2 verifyEx ssGetEx cfgEx _ "Token ab.cd"
      (by decide) rfl (by decide)⟩

/-- C7: once the header, credential-shape and session-identifier checks have
passed, a failed session-secret retrieval (redis error or missing key, both an
`Except.error`) yields the 404 `Unknown` failure — for every decoder `verify`,
so the decode step is never consulted. -/
theorem C7_session_secret_unavailable
    (verify : String → String → String → Except DecodeError String)
    (ssGet : String → Except Unit String) (config : Config) (req : Request)
    (hdr : String)
    (hx : req.xRequestedWith = some "XMLHttpRequest")
    (hh : req.authorizationHeaders = [hdr])
    (hpre : strStartsWith hdr AUTHORIZATION_HEADER_PREFIX = true)
    (hdot : strContainsChar (strDrop hdr AUTHORIZATION_HEADER_PREFIX.length) '.' = true)
    (hsid : (req.param2.getD "").isEmpty = false)
    (hss : ssGet (req.param2.getD "") = Except.error ()) :
    VerificationToken.from_request verify ssGet config req =
      ReqOutcome.failure 404 VerificationTokenError.Unknown := by
  unfold VerificationToken.from_request
  rw [hh]
  simp [hx, hpre, hdot, hsid, hss]

/-- C7, instantiated: a well-formed request whose session id `nosuch` has no
secret in the store. -/
theorem C7_session_secret_unavailable_witness :
    ssGetEx "nosuch" = Except.error ()
    ∧ VerificationToken.from_request verifyEx ssGetEx cfgEx
      { xRequestedWith := some "XMLHttpRequest"
        authorizationHeaders := ["Bearer ab.cd"]
        param2 := some "nosuch" } =
      ReqOutcome.failure 404 VerificationTokenError.Unknown :=
  ⟨rfl,
    C7_session_secret_unavailable verifyEx ssGetEx cfgEx
      { xRequestedWith := some "XMLHttpRequest"
        authorizationHeaders := ["Bearer ab.cd"]
        param2 := some "nosuch" } "Bearer ab.cd"
      rfl rfl (by decide) (by decide) (by decide) rfl⟩

/-- C8: acquiring a queue connection never hangs and never yields anything
except the two announced outcomes — the embedding of `MqConn::from_request`
is a total function of the pool's bounded-wait answer, returning the
connection on success and the 503 service-unavailable failure exactly when
the pool reports exhaustion. -/
theorem C8_pool_exhaustion {α : Type} (poolGet : Except Unit α) :
    (∃ conn, MqConn.from_request poolGet = ReqOutcome.success conn
      ∧ poolGet = Except.ok conn)
    ∨ (MqConn.from_request poolGet = ReqOutcome.failure 503 ()
      ∧ poolGet = Except.error ()) := by
  cases poolGet with
  | ok conn => exact Or.inl ⟨conn, rfl, rfl⟩
  | error e => exact Or.inr ⟨rfl, rfl⟩

/-- C10: a lookup with an id strictly below 1 returns `None` for every
possible record-store answer — the store is never consulted — for both
`UserEmail::find_by_id` and `Membership::find_by_id`. -/
theorem C10_nonpositive_id_short_circuit (id : Int)
    (storeU : Int → Except Unit UserEmail)
    (storeM : Int → Except Unit Membership)
    (hid : id < 1) :
    UserEmail.find_by_id id storeU = none
    ∧ Membership.find_by_id id storeM = none := by
  constructor
  · unfold UserEmail.find_by_id
    rw [if_pos hid]
  · unfold Membership.find_by_id
    rw [if_pos hid]

/-- A concrete `UserEmail` row (with an outstanding prior grant, so the
grant theorems exercise the overwriting case). -/
def ueEx : UserEmail :=
  { id := 1
    user_id := 7
    email := some "hennry@example.org"
    role := .Primary
    activation_state := .Pending
    activation_token := some "OLDTOKEN"
    activation_token_expires_at := some 999
    activation_token_granted_at := some 900
    created_at := 10
    updated_at := 20 }

/-- A concrete `Membership` row. -/
def memEx : Membership :=
  { id := 3
    namespace_id := 4
    user_id := 7
    role := .PrimaryOwner
    revoked_at := none
    created_at := 10
    updated_at := 20 }

/-- C10, instantiated at id 0 against stores that would answer with a row —
the answer is still `None`. -/
theorem C10_nonpositive_id_short_circuit_witness :
    (0 : Int) < 1
    ∧ UserEmail.find_by_id 0 (fun _ => Except.ok ueEx) = none
    ∧ Membership.find_by_id 0 (fun _ => Except.ok memEx) = none :=
  ⟨by decide,
    C10_nonpositive_id_short_circuit 0 (fun _ => Except.ok ueEx)
      (fun _ => Except.ok memEx) (by decide)⟩

/-- C4: a successful grant stores the freshly generated fragment as
`activation_token` together with `granted_at` and `expires_at` on the record
(overwriting whatever grant was there — `self` is arbitrary), and returns
exactly the stored fragment; a second successful grant stores the second
fragment, so when the fragments differ the first no longer matches the stored
value. -/
theorem C4_grant_overwrites (pick pick2 : Nat → Nat) (now now2 : Int)
    (self : UserEmail) :
    ∃ tok row,
      UserEmail.grant_activation_token pick now false self = (Except.ok tok, row)
      ∧ row.activation_token = some tok
      ∧ row.activation_token_granted_at = some now
      ∧ row.activation_token_expires_at = some (now + Duration.hours 24)
      ∧ ∃ tok2 row2,
        UserEmail.grant_activation_token pick2 now2 false row =
          (Except.ok tok2, row2)
        ∧ row2.activation_token = some tok2
        ∧ (tok2 ≠ tok → row2.activation_token ≠ some tok) := by
  refine ⟨_, _, rfl, rfl, rfl, rfl, _, _, rfl, rfl, ?_⟩
  intro hne hcontra
  exact hne (Option.some.inj hcontra)

/-- C4, instantiated on a record that already carries an outstanding grant,
with two random streams whose fragments provably differ. -/
theorem C4_grant_overwrites_witness :
    (∃ tok row,
      UserEmail.grant_activation_token (fun _ => 0) 100 false ueEx =
        (Except.ok tok, row)
      ∧ row.activation_token = some tok
      ∧ row.activation_token_granted_at = some 100
      ∧ row.activation_token_expires_at = some (100 + Duration.hours 24)
      ∧ ∃ tok2 row2,
        UserEmail.grant_activation_token (fun _ => 1) 200 false row =
          (Except.ok tok2, row2)
        ∧ row2.activation_token = some tok2
        ∧ (tok2 ≠ tok → row2.activation_token ≠ some tok))
    ∧ generate_random_hash ACTIVATION_HASH_SOURCE ACTIVATION_HASH_LENGTH
        (fun _ => 1)
      ≠ generate_random_hash ACTIVATION_HASH_SOURCE ACTIVATION_HASH_LENGTH
        (fun _ => 0) :=
  ⟨C4_grant_overwrites (fun _ => 0) (fun _ => 1) 100 200 ueEx, by decide⟩

/-- C5: the state persisted by a successful grant carries
`granted_at = now` and `expires_at = now + 24 hours` (24 × 3600 seconds),
with `now` taken at grant time. -/
theorem C5_expiry_is_grant_plus_24h (pick : Nat → Nat) (now : Int)
    (self : UserEmail) :
    (UserEmail.grant_activation_token pick now false self).2.activation_token_granted_at
      = some now
    ∧ (UserEmail.grant_activation_token pick now false self).2.activation_token_expires_at
      = some (now + 24 * 3600) :=
  ⟨rfl, rfl⟩

/-- C6: every generated token fragment has exactly 128 characters, each drawn
from `ACTIVATION_HASH_SOURCE`, whose characters are all ASCII alphanumeric. -/
theorem C6_fragment_shape (pick : Nat → Nat) :
    (generate_random_hash ACTIVATION_HASH_SOURCE ACTIVATION_HASH_LENGTH pick).length
      = 128
    ∧ ∀ c ∈ (generate_random_hash ACTIVATION_HASH_SOURCE ACTIVATION_HASH_LENGTH
        pick).toList,
      c ∈ ACTIVATION_HASH_SOURCE ∧ c.isAlphanum = true := by
  constructor
  · show ((List.range ACTIVATION_HASH_LENGTH.toNat).map _).length = 128
    simp
    decide
  · intro c hc
    have hlist : (generate_random_hash ACTIVATION_HASH_SOURCE
          ACTIVATION_HASH_LENGTH pick).toList
        = (List.range ACTIVATION_HASH_LENGTH.toNat).map
          (fun i => ACTIVATION_HASH_SOURCE.getD
            (pick i % ACTIVATION_HASH_SOURCE.length) 'A') := rfl
    rw [hlist] at hc
    obtain ⟨i, _, rfl⟩ := List.mem_map.mp hc
    have hlt : pick i % ACTIVATION_HASH_SOURCE.length
        < ACTIVATION_HASH_SOURCE.length :=
      Nat.mod_lt _ (by decide)
    have hmem : ACTIVATION_HASH_SOURCE.getD
        (pick i % ACTIVATION_HASH_SOURCE.length) 'A' ∈ ACTIVATION_HASH_SOURCE := by
      rw [List.getD_eq_getElem _ _ hlt]
      exact List.getElem_mem hlt
    have hall : ∀ x ∈ ACTIVATION_HASH_SOURCE, x.isAlphanum = true := by decide
    exact ⟨hmem, hall _ hmem⟩

/-- C6, instantiated at a constant random stream and the character it
produces. -/
theorem C6_fragment_shape_witness :
    (generate_random_hash ACTIVATION_HASH_SOURCE ACTIVATION_HASH_LENGTH
      (fun _ => 0)).length = 128
    ∧ 'A' ∈ (generate_random_hash ACTIVATION_HASH_SOURCE ACTIVATION_HASH_LENGTH
      (fun _ => 0)).toList
    ∧ ('A' ∈ ACTIVATION_HASH_SOURCE ∧ 'A'.isAlphanum = true) :=
  ⟨(C6_fragment_shape (fun _ => 0)).1, by decide,
    (C6_fragment_shape (fun _ => 0)).2 'A' (by decide)⟩

/-- C9: a successful insert always stores `role = Primary` and
`activation_state = Pending` and leaves the three activation-token columns
unset, whatever role and activation state the `NewUserEmail` input carried;
two inputs agreeing on `user_id` and `email` insert identically. -/
theorem C9_insert_normalizes :
    (∀ (ne : NewUserEmail) (res : Except Unit (Int × Int × Int))
      (row : UserEmail),
      UserEmail.insert ne res = some row →
      row.role = UserEmailRole.Primary
      ∧ row.activation_state = UserEmailActivationState.Pending
      ∧ row.activation_token = none
      ∧ row.activation_token_expires_at = none
      ∧ row.activation_token_granted_at = none)
    ∧ (∀ (ne1 ne2 : NewUserEmail) (res : Except Unit (Int × Int × Int)),
      ne1.user_id = ne2.user_id → ne1.email = ne2.email →
      UserEmail.insert ne1 res = UserEmail.insert ne2 res) := by
  constructor
  · intro ne res row hrow
    cases res with
    | error e => simp [UserEmail.insert] at hrow
    | ok v =>
      obtain ⟨id, created, updated⟩ := v
      simp only [UserEmail.insert] at hrow
      injection hrow with h
      subst h
      exact ⟨rfl, rfl, rfl, rfl, rfl⟩
  · intro ne1 ne2 res h1 h2
    cases res with
    | error e => rfl
    | ok v =>
      obtain ⟨id, created, updated⟩ := v
      simp [UserEmail.insert, h1, h2]

/-- A `NewUserEmail` that carries the non-default role and state, to show the
insert ignores them. -/
def neEx : NewUserEmail :=
  { user_id := 7
    email := "hennry@example.org"
    role := .General
    activation_state := .Active }

/-- The same addressee as `neEx` with the other role and state. -/
def neEx2 : NewUserEmail :=
  { user_id := 7
    email := "hennry@example.org"
    role := .Primary
    activation_state := .Pending }

/-- The row `UserEmail.insert neEx (Except.ok (1, 5, 6))` produces. -/
def ueInsertedEx : UserEmail :=
  { id := 1
    user_id := 7
    email := some "hennry@example.org"
    role := .Primary
    activation_state := .Pending
    activation_token := none
    activation_token_expires_at := none
    activation_token_granted_at := none
    created_at := 5
    updated_at := 6 }

/-- C9, instantiated on an input carrying `role = General` and
`activation_state = Active`. -/
theorem C9_insert_normalizes_witness :
    UserEmail.insert neEx (Except.ok (1, 5, 6)) = some ueInsertedEx
    ∧ (ueInsertedEx.role = UserEmailRole.Primary
      ∧ ueInsertedEx.activation_state = UserEmailActivationState.Pending
      ∧ ueInsertedEx.activation_token = none
      ∧ ueInsertedEx.activation_token_expires_at = none
      ∧ ueInsertedEx.activation_token_granted_at = none)
    ∧ UserEmail.insert neEx (Except.ok (1, 5, 6))
      = UserEmail.insert neEx2 (Except.ok (1, 5, 6)) :=
  ⟨rfl,
    C9_insert_normalizes.1 neEx (Except.ok (1, 5, 6)) ueInsertedEx rfl,
    C9_insert_normalizes.2 neEx neEx2 (Except.ok (1, 5, 6)) rfl rfl⟩

end Montafon
